import Mathlib

/-
Shallow embedding of `pyloginsight/connection.py` (VMware vRealize Log Insight SDK).

The embedded core is the authentication interceptor (`Credentials`: `get_session`,
`handle_401`, `__call__`) and the HTTP wrapper (`Connection`: the verb helpers and
`copy_connection`).  Python's side effects are made explicit:

* the mutable `Credentials.sessionId` field is threaded as explicit state
  (`handle_401` returns the updated credential next to its result);
* exceptions become `Except AuthError`;
* every request handed to the underlying transport connection
  (`r.connection.send` in the source) is recorded in an output trace, so that
  "the server was contacted exactly once / never" is a statement about that list;
* the transport itself (`requests`' adapter-level `send`) is an uninterpreted
  function `PreparedRequest → HttpResponse` passed in as a parameter.  Both the
  login POST and the retry use this same function, mirroring the source's use of
  `previousresponse.connection.send` / `r.connection.send`, which bypasses the
  session-level hook dispatch (so the interceptor is never re-entered).

Header dictionaries are association lists with exact-string keys; the source only
ever uses the literal keys `Authorization`, `Content-Type` and `Warning`.
JSON response bodies are modelled as `Option` of a string-valued object
(`none` = body that fails to parse as JSON), which is exactly the granularity the
source inspects (`authresponse.json()['sessionId']`).
-/

namespace PyLoginsight

/-- Result of `urlparse`: the six components of a URL.  `urlunparse` is the
structure constructor. -/
structure Url where
  scheme : String
  netloc : String
  path : String
  params : Option String
  query : Option String
  fragment : Option String
deriving DecidableEq, Repr

/-- Response hooks registrable on a prepared request via `register_hook`.  The
source registers exactly one kind: `Credentials.handle_401`. -/
inductive Hook : Type where
  | handle401 : Hook
deriving DecidableEq, Repr

/-- A `requests.PreparedRequest`: method, target URL, headers, JSON body and the
list of registered response hooks.  `copy()` is structural copying, which is
implicit in a pure embedding. -/
structure PreparedRequest where
  method : String
  url : Url
  headers : List (String × String)
  body : Option (List (String × String))
  hooks : List Hook
deriving DecidableEq, Repr

/-- A `requests.Response`: status code, headers, parsed JSON body (`none` when
the body does not parse as a JSON object of strings), the redirect/retry
`history` list, and the `request` that produced it. -/
inductive HttpResponse : Type where
  | mk (status_code : Nat) (headers : List (String × String))
      (json : Option (List (String × String)))
      (history : List HttpResponse)
      (request : PreparedRequest) : HttpResponse

def HttpResponse.status_code : HttpResponse → Nat
  | .mk s _ _ _ _ => s

def HttpResponse.headers : HttpResponse → List (String × String)
  | .mk _ h _ _ _ => h

def HttpResponse.json : HttpResponse → Option (List (String × String))
  | .mk _ _ j _ _ => j

def HttpResponse.history : HttpResponse → List HttpResponse
  | .mk _ _ _ hist _ => hist

def HttpResponse.request : HttpResponse → PreparedRequest
  | .mk _ _ _ _ req => req

/-- Mutation `_r.history.append(r)` on a response. -/
def HttpResponse.appendHistory : HttpResponse → HttpResponse → HttpResponse
  | .mk s h j hist req, r => .mk s h j (hist ++ [r]) req

/-- Mutation `_r.request = prep` on a response. -/
def HttpResponse.setRequest : HttpResponse → PreparedRequest → HttpResponse
  | .mk s h j hist _, p => .mk s h j hist p

/-- Dictionary lookup (`d.get(k)` / `d[k]`) on an association list. -/
def lookupKey (d : List (String × String)) (k : String) : Option String :=
  (d.find? (fun p => p.1 = k)).map (fun p => p.2)

/-- Dictionary membership (`k in d`). -/
def hasKey (d : List (String × String)) (k : String) : Bool :=
  d.any (fun p => p.1 = k)

/-- Dictionary update (`d.update({k: v})` / `d[k] = v`): overwrite the value at
`k` where present, append the pair otherwise. -/
def setKey (d : List (String × String)) (k v : String) : List (String × String) :=
  if hasKey d k then d.map (fun p => if p.1 = k then (k, v) else p)
  else d ++ [(k, v)]

/-- Dictionary deletion (`del d[k]`, with the `KeyError` for an absent key
swallowed as in the source). -/
def delKey (d : List (String × String)) (k : String) : List (String × String) :=
  d.filter (fun p => ¬(p.1 = k))

/-- Module constant `APIV1`. -/
def APIV1 : String := "/api/v1"

/-- Errors raised by the interceptor.  `missingCredentials` is the
`RuntimeError("Cannot authenticate without username/password")` (the spec's
`MissingCredentialsError`); `authenticationFailed` is
`Unauthorized("Authentication failed", response)` (the spec's
`AuthenticationFailedError`), carrying the triggering response. -/
inductive AuthError : Type where
  | missingCredentials : AuthError
  | authenticationFailed (response : HttpResponse) : AuthError

/-- The `Credentials` object: username/password (each may be `None`), the
identity `provider`, the mutable `sessionId` token, and the identity of the
`requests.Session` built or reused in `__init__` (an opaque reference). -/
structure Credentials where
  username : Option String
  password : Option String
  provider : String
  sessionId : Option String
  requests_session : Nat
deriving DecidableEq, Repr

/-- The prepared login request built inside `Credentials.get_session` from the
failed response: copy the original request, delete any `Authorization` header,
`prepare_method("post")`, `prepare_url` to
`{scheme}://{netloc}/api/v1/sessions` (params/query/fragment cleared), and
`prepare_body(json=authdict)` (which also supplies a `Content-Type` header when
none is present). -/
def loginRequest (u p provider : String) (previousresponse : HttpResponse) :
    PreparedRequest :=
  let authdict : List (String × String) :=
    [("username", u), ("password", p), ("provider", provider)]
  let prep0 := previousresponse.request
  let prep1 : PreparedRequest :=
    { prep0 with headers := delKey prep0.headers "Authorization" }
  let prep2 : PreparedRequest := { prep1 with method := "POST" }
  let pu := previousresponse.request.url
  let prep3 : PreparedRequest :=
    { prep2 with url := { scheme := pu.scheme, netloc := pu.netloc,
                          path := APIV1 ++ "/sessions",
                          params := none, query := none, fragment := none } }
  { prep3 with
    body := some authdict,
    headers := if hasKey prep3.headers "Content-Type" then prep3.headers
               else prep3.headers ++ [("Content-Type", "application/json")] }

/-- `Credentials.get_session(previousresponse)`: perform a session login on the
same underlying connection (`send`) and return the new session id.  The second
component is the trace of requests handed to the transport.  The bare
`try: return authresponse.json()['sessionId'] except: raise Unauthorized(...)`
succeeds exactly when the body parses as JSON and carries a `sessionId` key —
the HTTP status of the login response is not consulted. -/
def get_session (cred : Credentials) (previousresponse : HttpResponse)
    (send : PreparedRequest → HttpResponse) :
    Except AuthError String × List PreparedRequest :=
  match cred.username, cred.password with
  | some u, some p =>
      let prep := loginRequest u p cred.provider previousresponse
      let authresponse := send prep
      match authresponse.json.bind (fun obj => lookupKey obj "sessionId") with
      | some sid => (Except.ok sid, [prep])
      | none => (Except.error (AuthError.authenticationFailed authresponse), [prep])
  | _, _ => (Except.error AuthError.missingCredentials, [])

/-- The retried request built in `Credentials.handle_401` after a successful
login: `prep = r.request.copy()` followed by
`prep.headers.update(Authorization: Bearer sid)`. -/
def retryRequest (sid : String) (r : HttpResponse) : PreparedRequest :=
  { r.request with
    headers := setKey r.request.headers "Authorization" ("Bearer " ++ sid) }

/-- The retried response `_r` as `handle_401` hands it on: the transport's
answer to the retried request, with the original failed response appended to
its `history` and its `request` attribute set to the retried request. -/
def retriedResponse (send : PreparedRequest → HttpResponse) (sid : String)
    (r : HttpResponse) : HttpResponse :=
  ((send (retryRequest sid r)).appendHistory r).setRequest (retryRequest sid r)

/-- `Credentials.handle_401(r)`, the response hook.  Returns the result (the
response passed through, the retried response, or the raised error), the
credential with its `sessionId` field as mutated, and the trace of requests
sent on the underlying connection during the call.  Termination is by
construction: the retry is sent with `r.connection.send`, which does not
dispatch response hooks, so the hook body runs at most once per response. -/
def handle_401 (cred : Credentials) (r : HttpResponse)
    (send : PreparedRequest → HttpResponse) :
    Except AuthError HttpResponse × Credentials × List PreparedRequest :=
  if ¬(r.status_code = 401 ∨ r.status_code = 440) then
    (Except.ok r, cred, [])
  else
    match get_session cred r send with
    | (Except.error e, trace) => (Except.error e, cred, trace)
    | (Except.ok sid, trace) =>
        let cred' : Credentials := { cred with sessionId := some sid }
        let retried := retriedResponse send sid r
        if retried.status_code = 401 ∨ retried.status_code = 440 then
          (Except.error (AuthError.authenticationFailed retried), cred',
            trace ++ [retryRequest sid r])
        else
          (Except.ok retried, cred', trace ++ [retryRequest sid r])

/-- `Credentials.__call__(r)`: if a (truthy, hence non-empty) session id is
held, set the `Authorization: Bearer ...` header; in all cases register the
`handle_401` response hook. -/
def Credentials.call (cred : Credentials) (r : PreparedRequest) : PreparedRequest :=
  let r1 : PreparedRequest :=
    match cred.sessionId with
    | some s =>
        if s = "" then r
        else { r with headers := setKey r.headers "Authorization" ("Bearer " ++ s) }
    | none => r
  { r1 with hooks := r1.hooks ++ [Hook.handle401] }

/-- The `Connection` object.  The reusable transport session and the credential
(`auth`) are held by reference; object identity is modelled with opaque `Nat`
references, so that "two connections share the same session/credential object"
is reference equality.  `_apiroot` is computed once at construction. -/
structure Connection where
  requestsession : Nat
  hostname : String
  port : Nat
  ssl : Bool
  verify : Bool
  authprovider : Option Nat
  apiroot : String
deriving DecidableEq, Repr

/-- `Connection.__init__`: reuse `existing_session` when supplied (a
`requests.Session` object is always truthy), otherwise adopt the freshly
allocated session `freshSession`; compute
`{method}://{hostname}:{port}/api/v1` with `https` when `ssl` else `http`. -/
def Connection.init (hostname : String) (port : Nat) (ssl : Bool) (verify : Bool)
    (auth : Option Nat) (existing_session : Option Nat) (freshSession : Nat) :
    Connection :=
  { requestsession := existing_session.getD freshSession
    hostname := hostname
    port := port
    ssl := ssl
    verify := verify
    authprovider := auth
    apiroot := (if ssl then "https" else "http") ++ "://" ++ hostname ++ ":"
                 ++ toString port ++ APIV1 }

/-- `Connection.copy_connection`: a new `Connection` built from the old one's
configuration, passing its session as `existing_session` and its credential as
`auth`.  `freshSession` is the session that `__init__` would allocate were the
existing one absent. -/
def Connection.copy_connection (connection : Connection) (freshSession : Nat) :
    Connection :=
  Connection.init connection.hostname connection.port connection.ssl
    connection.verify connection.authprovider (some connection.requestsession)
    freshSession

/-- Arguments of one delegation to the transport session
(`self._requestsession.post(...)` and friends). -/
structure VerbCall where
  method : String
  url : String
  data : Option String
  json : Option (List (String × String))
  params : Option String
  verify : Bool
  auth : Option Nat
deriving DecidableEq, Repr

/-- The `Warning`-header check shared by every verb helper:
`if 'Warning' in r.headers: warnings.warn(r.headers.get('Warning'))`.  The
emitted warnings are returned as a list. -/
def warnIfWarningHeader (r : HttpResponse) : List String :=
  if hasKey r.headers "Warning" then [(lookupKey r.headers "Warning").getD ""]
  else []

/-- `Connection._post`: delegate to the session with the connection's
verification setting and (when `sendauthorization`) its credential, emit the
`Warning` header if present, return the response. -/
def Connection.postVerb (c : Connection) (transport : VerbCall → HttpResponse)
    (url : String) (data : Option String) (json : Option (List (String × String)))
    (params : Option String) (sendauthorization : Bool) :
    HttpResponse × List String :=
  let r := transport { method := "POST", url := c.apiroot ++ url, data := data,
                       json := json, params := params, verify := c.verify,
                       auth := if sendauthorization then c.authprovider else none }
  (r, warnIfWarningHeader r)

/-- `Connection._get`. -/
def Connection.getVerb (c : Connection) (transport : VerbCall → HttpResponse)
    (url : String) (params : Option String) (sendauthorization : Bool) :
    HttpResponse × List String :=
  let r := transport { method := "GET", url := c.apiroot ++ url, data := none,
                       json := none, params := params, verify := c.verify,
                       auth := if sendauthorization then c.authprovider else none }
  (r, warnIfWarningHeader r)

/-- `Connection._delete`. -/
def Connection.deleteVerb (c : Connection) (transport : VerbCall → HttpResponse)
    (url : String) (params : Option String) (sendauthorization : Bool) :
    HttpResponse × List String :=
  let r := transport { method := "DELETE", url := c.apiroot ++ url, data := none,
                       json := none, params := params, verify := c.verify,
                       auth := if sendauthorization then c.authprovider else none }
  (r, warnIfWarningHeader r)

/-- `Connection._put`. -/
def Connection.putVerb (c : Connection) (transport : VerbCall → HttpResponse)
    (url : String) (data : Option String) (json : Option (List (String × String)))
    (params : Option String) (sendauthorization : Bool) :
    HttpResponse × List String :=
  let r := transport { method := "PUT", url := c.apiroot ++ url, data := data,
                       json := json, params := params, verify := c.verify,
                       auth := if sendauthorization then c.authprovider else none }
  (r, warnIfWarningHeader r)

/-- `Connection._patch`. -/
def Connection.patchVerb (c : Connection) (transport : VerbCall → HttpResponse)
    (url : String) (data : Option String) (json : Option (List (String × String)))
    (params : Option String) (sendauthorization : Bool) :
    HttpResponse × List String :=
  let r := transport { method := "PATCH", url := c.apiroot ++ url, data := data,
                       json := json, params := params, verify := c.verify,
                       auth := if sendauthorization then c.authprovider else none }
  (r, warnIfWarningHeader r)

/-- Observation of the shared credential through a connection: the
`sessionToken` currently stored in the credential the connection points at,
for a given state `store` of all credential objects (`none` when the
connection is unauthenticated). -/
def Connection.observedToken (store : Nat → Option String) (c : Connection) :
    Option (Option String) :=
  c.authprovider.map store

/-! ### Concrete fixtures used by witnesses and counterexamples -/

/-- A plain authenticated GET request, as the transport would have prepared
it. -/
def reqEx : PreparedRequest :=
  { method := "GET"
    url := { scheme := "https", netloc := "li.example.com:9543",
             path := "/api/v1/events", params := none, query := none,
             fragment := none }
    headers := [("Authorization", "Bearer stale"), ("User-Agent", "pyloginsight/0")]
    body := none
    hooks := [Hook.handle401] }

/-- A 401 response to `reqEx`. -/
def respEx401 : HttpResponse := .mk 401 [] none [] reqEx

/-- A 500 response to `reqEx`. -/
def respEx500 : HttpResponse := .mk 500 [] none [] reqEx

/-- A fully populated credential. -/
def credEx : Credentials :=
  { username := some "admin", password := some "secret", provider := "Local"
    sessionId := some "stale", requests_session := 0 }

/-- A credential with no password configured. -/
def credNoPass : Credentials :=
  { username := some "admin", password := none, provider := "Local"
    sessionId := some "stale", requests_session := 0 }

/-- A transport that answers the login POST with a good session id and
everything else with 200. -/
def sendOk (prep : PreparedRequest) : HttpResponse :=
  if prep.method = "POST" ∧ prep.url.path = "/api/v1/sessions" then
    .mk 200 [] (some [("sessionId", "abc123")]) [] prep
  else .mk 200 [("XH", "y")] none [] prep

/-- A transport whose answer to the login POST has HTTP status 500 and yet
carries a `sessionId` field in its JSON body. -/
def send500 (prep : PreparedRequest) : HttpResponse :=
  .mk 500 [] (some [("sessionId", "tok500")]) [] prep

/-- A transport whose answer to the login POST is a 200 whose JSON body lacks
the `sessionId` field. -/
def sendNoSid (prep : PreparedRequest) : HttpResponse :=
  .mk 200 [] (some [("status", "weird")]) [] prep

/-- A transport that always answers 401. -/
def send401 (prep : PreparedRequest) : HttpResponse :=
  .mk 401 [] none [] prep

/-- A credential that holds no session token yet. -/
def credNoSid : Credentials :=
  { username := some "admin", password := some "secret", provider := "Local"
    sessionId := none, requests_session := 0 }

/-- A transport that answers the login POST with a good session id but the
retried request with 401 again. -/
def sendRetry401 (prep : PreparedRequest) : HttpResponse :=
  if prep.method = "POST" ∧ prep.url.path = "/api/v1/sessions" then
    .mk 200 [] (some [("sessionId", "abc123")]) [] prep
  else .mk 401 [] none [] prep

/-! ### Basic lemmas about the dictionary and response helpers -/

theorem status_code_appendHistory (x r : HttpResponse) :
    (x.appendHistory r).status_code = x.status_code := by
  cases x; rfl

theorem status_code_setRequest (x : HttpResponse) (p : PreparedRequest) :
    (x.setRequest p).status_code = x.status_code := by
  cases x; rfl

theorem history_appendHistory (x r : HttpResponse) :
    (x.appendHistory r).history = x.history ++ [r] := by
  cases x; rfl

theorem history_setRequest (x : HttpResponse) (p : PreparedRequest) :
    (x.setRequest p).history = x.history := by
  cases x; rfl

theorem request_setRequest (x : HttpResponse) (p : PreparedRequest) :
    (x.setRequest p).request = p := by
  cases x; rfl

theorem status_code_retriedResponse (send : PreparedRequest → HttpResponse)
    (sid : String) (r : HttpResponse) :
    (retriedResponse send sid r).status_code = (send (retryRequest sid r)).status_code := by
  rw [retriedResponse, status_code_setRequest, status_code_appendHistory]

theorem hasKey_delKey (d : List (String × String)) (k : String) :
    hasKey (delKey d k) k = false := by
  induction d with
  | nil => rfl
  | cons p t ih =>
      by_cases h : p.1 = k
      · simpa [delKey, h] using ih
      · simp [hasKey, delKey, h]

theorem hasKey_append (d e : List (String × String)) (k : String) :
    hasKey (d ++ e) k = (hasKey d k || hasKey e k) := by
  simp [hasKey, List.any_append]

theorem lookupKey_map_setKey (d : List (String × String)) (k v : String) :
    hasKey d k = true →
    lookupKey (d.map (fun p => if p.1 = k then (k, v) else p)) k = some v := by
  induction d with
  | nil => intro h; simp [hasKey] at h
  | cons p t ih =>
      intro h
      by_cases hp : p.1 = k
      · simp [lookupKey, hp]
      · have ht : hasKey t k = true := by simpa [hasKey, hp] using h
        simpa [lookupKey, hp] using ih ht

theorem lookupKey_append_of_not_has (d : List (String × String)) (k v : String) :
    hasKey d k = false →
    lookupKey (d ++ [(k, v)]) k = some v := by
  induction d with
  | nil => intro _; simp [lookupKey]
  | cons p t ih =>
      intro h
      simp only [hasKey, List.any_cons, Bool.or_eq_false_iff] at h
      have hp : ¬(p.1 = k) := by simpa using h.1
      have ht : hasKey t k = false := h.2
      simpa [lookupKey, hp] using ih ht

theorem lookupKey_setKey (d : List (String × String)) (k v : String) :
    lookupKey (setKey d k v) k = some v := by
  rw [setKey]
  by_cases h : hasKey d k = true
  · rw [if_pos h]; exact lookupKey_map_setKey d k v h
  · rw [if_neg h]
    exact lookupKey_append_of_not_has d k v (by simpa using h)

theorem setKey_mem (d : List (String × String)) (k v : String) :
    ∀ pr ∈ setKey d k v, pr.1 = k → pr.2 = v := by
  intro pr hmem hk
  rw [setKey] at hmem
  by_cases h : hasKey d k
  · rw [if_pos h] at hmem
    rcases List.mem_map.mp hmem with ⟨q, _, hq⟩
    by_cases hq1 : q.1 = k
    · rw [if_pos hq1] at hq; rw [← hq]
    · rw [if_neg hq1] at hq; rw [← hq] at hk; exact absurd hk hq1
  · rw [if_neg h] at hmem
    rcases List.mem_append.mp hmem with hmem | hmem
    · exfalso
      exact h (by rw [hasKey]; exact List.any_eq_true.mpr ⟨pr, hmem, by simpa using hk⟩)
    · simp only [List.mem_singleton] at hmem
      rw [hmem]

theorem hasKey_iff_lookupKey (d : List (String × String)) (k : String) :
    hasKey d k = true ↔ (lookupKey d k).isSome := by
  induction d with
  | nil => simp [hasKey, lookupKey]
  | cons p t ih =>
      by_cases hp : p.1 = k
      · simp [hasKey, lookupKey, hp]
      · simp [hasKey, lookupKey, hp]

theorem warnIfWarningHeader_eq (r : HttpResponse) :
    warnIfWarningHeader r =
      (match lookupKey r.headers "Warning" with
       | some w => [w]
       | none => []) := by
  rw [warnIfWarningHeader]
  by_cases h : hasKey r.headers "Warning"
  · rw [if_pos h]
    rcases Option.isSome_iff_exists.mp ((hasKey_iff_lookupKey _ _).mp h) with ⟨w, hw⟩
    rw [hw]; rfl
  · rw [if_neg h]
    have : lookupKey r.headers "Warning" = none := by
      cases hl : lookupKey r.headers "Warning" with
      | none => rfl
      | some w => exact absurd ((hasKey_iff_lookupKey _ _).mpr (by rw [hl]; rfl)) h
    rw [this]

theorem get_session_trace_length (cred : Credentials) (r : HttpResponse)
    (send : PreparedRequest → HttpResponse) :
    (get_session cred r send).2.length ≤ 1 := by
  obtain ⟨un, pw, prov, sid0, rs⟩ := cred
  cases un with
  | none => simp [get_session]
  | some u =>
    cases pw with
    | none => simp [get_session]
    | some p =>
      cases hm : (send (loginRequest u p prov r)).json.bind
          (fun obj => lookupKey obj "sessionId") with
      | none => simp [get_session, hm]
      | some sid => simp [get_session, hm]

theorem handle_401_not_auth (cred : Credentials) (r : HttpResponse)
    (send : PreparedRequest → HttpResponse)
    (h : ¬(r.status_code = 401 ∨ r.status_code = 440)) :
    handle_401 cred r send = (Except.ok r, cred, []) := by
  rw [handle_401, if_pos h]

theorem handle_401_of_error (cred : Credentials) (r : HttpResponse)
    (send : PreparedRequest → HttpResponse) (e : AuthError)
    (tr : List PreparedRequest)
    (hst : r.status_code = 401 ∨ r.status_code = 440)
    (hlogin : get_session cred r send = (Except.error e, tr)) :
    handle_401 cred r send = (Except.error e, cred, tr) := by
  rw [handle_401, if_neg (not_not_intro hst), hlogin]

theorem handle_401_of_ok (cred : Credentials) (r : HttpResponse)
    (send : PreparedRequest → HttpResponse) (sid : String)
    (tr : List PreparedRequest)
    (hst : r.status_code = 401 ∨ r.status_code = 440)
    (hlogin : get_session cred r send = (Except.ok sid, tr)) :
    handle_401 cred r send =
      if (retriedResponse send sid r).status_code = 401 ∨
          (retriedResponse send sid r).status_code = 440 then
        (Except.error (AuthError.authenticationFailed (retriedResponse send sid r)),
          { cred with sessionId := some sid }, tr ++ [retryRequest sid r])
      else
        (Except.ok (retriedResponse send sid r),
          { cred with sessionId := some sid }, tr ++ [retryRequest sid r]) := by
  rw [handle_401, if_neg (not_not_intro hst), hlogin]

/-! ### Claims -/

/-- C5: for every login attempt where the credential's username or password is
absent, `get_session` fails with the missing-credentials error before any
request is built or sent (empty transport trace), and when such a response is
in the 401/440 recovery path, `handle_401` propagates that error with no
request sent and the credential unchanged — the failure is not retried. -/
theorem get_session_missing_credentials (cred : Credentials) (r : HttpResponse)
    (send : PreparedRequest → HttpResponse)
    (h : cred.username = none ∨ cred.password = none) :
    get_session cred r send = (Except.error AuthError.missingCredentials, []) ∧
    ((r.status_code = 401 ∨ r.status_code = 440) →
      handle_401 cred r send =
        (Except.error AuthError.missingCredentials, cred, [])) := by
  have hgs : get_session cred r send = (Except.error AuthError.missingCredentials, []) := by
    rcases hu : cred.username with _ | u
    · rw [get_session, hu]
    · rcases hp : cred.password with _ | p
      · rw [get_session, hu, hp]
      · rcases h with h | h
        · rw [hu] at h; exact absurd h (by simp)
        · rw [hp] at h; exact absurd h (by simp)
  refine ⟨hgs, fun hst => ?_⟩
  rw [handle_401, if_neg (not_not_intro hst), hgs]

/-- C5 witness: the missing-password credential fails without contacting the
server and `handle_401` propagates the failure untouched. -/
theorem get_session_missing_credentials_witness :
    get_session credNoPass respEx401 sendOk =
      (Except.error AuthError.missingCredentials, []) ∧
    handle_401 credNoPass respEx401 sendOk =
      (Except.error AuthError.missingCredentials, credNoPass, []) := by
  have h := get_session_missing_credentials credNoPass respEx401 sendOk (Or.inr rfl)
  exact ⟨h.1, h.2 (Or.inl rfl)⟩

/-- C6: a response whose status is neither 401 nor 440 is passed through
`handle_401` unchanged: the same response is returned, the credential is not
touched, no request is sent on the connection, and no error is raised. -/
theorem handle_401_passthrough (cred : Credentials) (r : HttpResponse)
    (send : PreparedRequest → HttpResponse)
    (h : ¬(r.status_code = 401 ∨ r.status_code = 440)) :
    handle_401 cred r send = (Except.ok r, cred, []) :=
  handle_401_not_auth cred r send h

/-- C6 witness: a 500 response is returned as-is. -/
theorem handle_401_passthrough_witness :
    handle_401 credEx respEx500 sendOk = (Except.ok respEx500, credEx, []) :=
  handle_401_passthrough credEx respEx500 sendOk (by decide)

/-- C1: for a response with status 401 or 440 whose login exchange yields a
session id, `handle_401` performs exactly one login-and-resend cycle: the
transport trace is the login trace (at most one request) followed by exactly
one resend of the original request; if the retried response again has status
401 or 440, the result is `AuthenticationFailedError` carrying that retried
response.  `handle_401` is a total function and the retry bypasses hook
dispatch, so the process terminates and never loops. -/
theorem handle_401_single_retry (cred : Credentials) (r : HttpResponse)
    (send : PreparedRequest → HttpResponse) (sid : String)
    (tr : List PreparedRequest)
    (hst : r.status_code = 401 ∨ r.status_code = 440)
    (hlogin : get_session cred r send = (Except.ok sid, tr)) :
    (handle_401 cred r send).2.2 = tr ++ [retryRequest sid r] ∧
    tr.length ≤ 1 ∧
    ((retriedResponse send sid r).status_code = 401 ∨
        (retriedResponse send sid r).status_code = 440 →
      (handle_401 cred r send).1 =
        Except.error (AuthError.authenticationFailed (retriedResponse send sid r))) := by
  rw [handle_401_of_ok cred r send sid tr hst hlogin]
  refine ⟨?_, ?_, ?_⟩
  · split <;> rfl
  · have h := get_session_trace_length cred r send
    rw [hlogin] at h
    exact h
  · intro hr
    rw [if_pos hr]

/-- C1 witness: with a transport whose retried request fails again with 401,
the trace is exactly [login request, retried original request] and the result
is the authentication failure carrying the retried response. -/
theorem handle_401_single_retry_witness :
    (handle_401 credEx respEx401 sendRetry401).2.2 =
      [loginRequest "admin" "secret" "Local" respEx401,
       retryRequest "abc123" respEx401] ∧
    (handle_401 credEx respEx401 sendRetry401).1 =
      Except.error (AuthError.authenticationFailed
        (retriedResponse sendRetry401 "abc123" respEx401)) := by
  have h := handle_401_single_retry credEx respEx401 sendRetry401 "abc123"
      [loginRequest "admin" "secret" "Local" respEx401] (Or.inl rfl) rfl
  exact ⟨h.1, h.2.2 (Or.inl rfl)⟩

/-- C2: with username and password present, the login exchange consists of
exactly one request handed to the same underlying connection (no recursion
into the interceptor): a POST to `{scheme}://{netloc}/api/v1/sessions` with
scheme and netloc taken from the failed request's URL, whose JSON body is
exactly the username/password/provider dictionary, with any `Authorization`
header removed. -/
theorem get_session_builds_login_post (cred : Credentials) (r : HttpResponse)
    (send : PreparedRequest → HttpResponse) (u p : String)
    (hu : cred.username = some u) (hp : cred.password = some p) :
    (get_session cred r send).2 = [loginRequest u p cred.provider r] ∧
    (loginRequest u p cred.provider r).method = "POST" ∧
    (loginRequest u p cred.provider r).url =
      { scheme := r.request.url.scheme, netloc := r.request.url.netloc,
        path := "/api/v1/sessions", params := none, query := none,
        fragment := none } ∧
    (loginRequest u p cred.provider r).body =
      some [("username", u), ("password", p), ("provider", cred.provider)] ∧
    hasKey (loginRequest u p cred.provider r).headers "Authorization" = false := by
  refine ⟨?_, rfl, ?_, rfl, ?_⟩
  · simp only [get_session, hu, hp]
    cases hm : (send (loginRequest u p cred.provider r)).json.bind
        (fun obj => lookupKey obj "sessionId") with
    | none => simp [hm]
    | some sid => simp [hm]
  · rfl
  · rw [loginRequest]
    simp only []
    split
    · exact hasKey_delKey _ _
    · rw [hasKey_append, hasKey_delKey]
      simp [hasKey]

/-- C2 witness: the concrete 401 recovery sends exactly the login request, and
that request carries no `Authorization` header. -/
theorem get_session_builds_login_post_witness :
    (get_session credEx respEx401 sendOk).2 =
      [loginRequest "admin" "secret" "Local" respEx401] ∧
    hasKey (loginRequest "admin" "secret" "Local" respEx401).headers
      "Authorization" = false := by
  have h := get_session_builds_login_post credEx respEx401 sendOk
      "admin" "secret" rfl rfl
  exact ⟨h.1, h.2.2.2.2⟩

/-- C3 counterexample: the claim says login fails whenever the login response
has a status other than 200, but `get_session` never consults the status: a
login response with HTTP status 500 whose JSON body carries `sessionId`
makes the login succeed. -/
theorem get_session_ignores_login_status :
    (send500 (loginRequest "admin" "secret" "Local" respEx401)).status_code = 500 ∧
    (get_session credEx respEx401 send500).1 = Except.ok "tok500" :=
  ⟨rfl, rfl⟩

/-- C3 (amended): with credentials present, the login fails terminally with
`AuthenticationFailedError` carrying the login response exactly when the login
response's JSON body is unparseable or lacks a `sessionId` field — regardless
of its HTTP status; on such a failure the original request is never resent
(`handle_401`'s transport trace is just the login request).  Dually, login
succeeds exactly when a `sessionId` string is extractable. -/
theorem get_session_failure_iff_no_sessionId (cred : Credentials)
    (r : HttpResponse) (send : PreparedRequest → HttpResponse) (u p : String)
    (hu : cred.username = some u) (hp : cred.password = some p) :
    ((send (loginRequest u p cred.provider r)).json.bind
        (fun obj => lookupKey obj "sessionId") = none →
      get_session cred r send =
        (Except.error (AuthError.authenticationFailed
            (send (loginRequest u p cred.provider r))),
          [loginRequest u p cred.provider r]) ∧
      ((r.status_code = 401 ∨ r.status_code = 440) →
        handle_401 cred r send =
          (Except.error (AuthError.authenticationFailed
              (send (loginRequest u p cred.provider r))),
            cred, [loginRequest u p cred.provider r]))) ∧
    (∀ sid, (send (loginRequest u p cred.provider r)).json.bind
        (fun obj => lookupKey obj "sessionId") = some sid →
      (get_session cred r send).1 = Except.ok sid) := by
  constructor
  · intro hnone
    have hgs : get_session cred r send =
        (Except.error (AuthError.authenticationFailed
            (send (loginRequest u p cred.provider r))),
          [loginRequest u p cred.provider r]) := by
      simp only [get_session, hu, hp, hnone]
    exact ⟨hgs, fun hst => handle_401_of_error cred r send _ _ hst hgs⟩
  · intro sid hsid
    simp only [get_session, hu, hp, hsid]

/-- C3 witness: a 200 login response without a `sessionId` field fails the
login with the error carrying that response, and the original request is not
retried. -/
theorem get_session_failure_iff_no_sessionId_witness :
    get_session credEx respEx401 sendNoSid =
      (Except.error (AuthError.authenticationFailed
          (sendNoSid (loginRequest "admin" "secret" "Local" respEx401))),
        [loginRequest "admin" "secret" "Local" respEx401]) ∧
    handle_401 credEx respEx401 sendNoSid =
      (Except.error (AuthError.authenticationFailed
          (sendNoSid (loginRequest "admin" "secret" "Local" respEx401))),
        credEx, [loginRequest "admin" "secret" "Local" respEx401]) := by
  have h := (get_session_failure_iff_no_sessionId credEx respEx401 sendNoSid
      "admin" "secret" rfl rfl).1 rfl
  exact ⟨h.1, h.2 (Or.inl rfl)⟩

/-- C4: after a successful login triggered by a 401/440 whose retried request
does not fail again, `handle_401` stores the new session id in the shared
credential, resends a copy of the original failed request (same method, URL
and body) whose every `Authorization` header entry is exactly
`Bearer <new token>` (no stale token remains), appends the original failed
response to the retried response's history, sets the retried response's
`request` attribute to the copied request, and returns that retried
response. -/
theorem handle_401_success_effects (cred : Credentials) (r : HttpResponse)
    (send : PreparedRequest → HttpResponse) (sid : String)
    (tr : List PreparedRequest)
    (hst : r.status_code = 401 ∨ r.status_code = 440)
    (hlogin : get_session cred r send = (Except.ok sid, tr))
    (hok : ¬((retriedResponse send sid r).status_code = 401 ∨
             (retriedResponse send sid r).status_code = 440)) :
    (handle_401 cred r send).2.1 = { cred with sessionId := some sid } ∧
    (handle_401 cred r send).1 = Except.ok (retriedResponse send sid r) ∧
    (retryRequest sid r).method = r.request.method ∧
    (retryRequest sid r).url = r.request.url ∧
    (retryRequest sid r).body = r.request.body ∧
    lookupKey (retryRequest sid r).headers "Authorization" =
      some ("Bearer " ++ sid) ∧
    (∀ pr ∈ (retryRequest sid r).headers,
        pr.1 = "Authorization" → pr.2 = "Bearer " ++ sid) ∧
    (retriedResponse send sid r).history =
      (send (retryRequest sid r)).history ++ [r] ∧
    (retriedResponse send sid r).request = retryRequest sid r := by
  have h1 : handle_401 cred r send = (Except.ok (retriedResponse send sid r),
      { cred with sessionId := some sid }, tr ++ [retryRequest sid r]) := by
    rw [handle_401_of_ok cred r send sid tr hst hlogin, if_neg hok]
  refine ⟨by rw [h1], by rw [h1], rfl, rfl, rfl,
    lookupKey_setKey _ _ _, setKey_mem _ _ _, ?_, ?_⟩
  · rw [retriedResponse, history_setRequest, history_appendHistory]
  · rw [retriedResponse, request_setRequest]

/-- C4 witness: at the concrete 401 recovery the retried response is returned,
the credential now holds the new token, and the resent request's
`Authorization` header is the fresh bearer token. -/
theorem handle_401_success_effects_witness :
    (handle_401 credEx respEx401 sendOk).2.1 =
      { credEx with sessionId := some "abc123" } ∧
    (handle_401 credEx respEx401 sendOk).1 =
      Except.ok (retriedResponse sendOk "abc123" respEx401) ∧
    lookupKey (retryRequest "abc123" respEx401).headers "Authorization" =
      some "Bearer abc123" := by
  have h := handle_401_success_effects credEx respEx401 sendOk "abc123"
      [loginRequest "admin" "secret" "Local" respEx401] (Or.inl rfl) rfl
      (by decide)
  exact ⟨h.1, h.2.1, h.2.2.2.2.2.1⟩

/-- C7: when the interceptor is invoked on an outgoing request, a held
(non-empty, per the data-model invariant) session token adds exactly the
`Authorization: Bearer <token>` header, an absent token leaves the headers
untouched, and in both cases the only other effect is appending the
`handle_401` response hook. -/
theorem call_attaches_bearer (cred : Credentials) (r : PreparedRequest) :
    (∀ s, cred.sessionId = some s → s ≠ "" →
      Credentials.call cred r =
        { r with headers := setKey r.headers "Authorization" ("Bearer " ++ s),
                 hooks := r.hooks ++ [Hook.handle401] }) ∧
    (cred.sessionId = none →
      Credentials.call cred r = { r with hooks := r.hooks ++ [Hook.handle401] }) := by
  constructor
  · intro s hs hne
    simp [Credentials.call, hs, hne]
  · intro hs
    simp [Credentials.call, hs]

/-- C7 witness: a credential holding a token decorates the request with the
bearer header; a fresh credential only registers the hook. -/
theorem call_attaches_bearer_witness :
    Credentials.call credEx reqEx =
      { reqEx with
        headers := setKey reqEx.headers "Authorization" "Bearer stale",
        hooks := reqEx.hooks ++ [Hook.handle401] } ∧
    Credentials.call credNoSid reqEx =
      { reqEx with hooks := reqEx.hooks ++ [Hook.handle401] } :=
  ⟨(call_attaches_bearer credEx reqEx).1 "stale" rfl (by decide),
   (call_attaches_bearer credNoSid reqEx).2 rfl⟩

/-- C8: each of the five verb helpers returns the transport's response for the
constructed call unaltered, and emits the value of the `Warning` header as a
non-fatal warning exactly when that header is present (and nothing
otherwise), regardless of the response's status. -/
theorem verbs_surface_warning (c : Connection)
    (transport : VerbCall → HttpResponse) (url : String)
    (data : Option String) (json : Option (List (String × String)))
    (params : Option String) (sa : Bool) :
    ((c.postVerb transport url data json params sa).1 =
        transport { method := "POST", url := c.apiroot ++ url, data := data,
                    json := json, params := params, verify := c.verify,
                    auth := if sa then c.authprovider else none } ∧
      (c.postVerb transport url data json params sa).2 =
        (match lookupKey (c.postVerb transport url data json params sa).1.headers
            "Warning" with
         | some w => [w]
         | none => [])) ∧
    ((c.getVerb transport url params sa).1 =
        transport { method := "GET", url := c.apiroot ++ url, data := none,
                    json := none, params := params, verify := c.verify,
                    auth := if sa then c.authprovider else none } ∧
      (c.getVerb transport url params sa).2 =
        (match lookupKey (c.getVerb transport url params sa).1.headers
            "Warning" with
         | some w => [w]
         | none => [])) ∧
    ((c.deleteVerb transport url params sa).1 =
        transport { method := "DELETE", url := c.apiroot ++ url, data := none,
                    json := none, params := params, verify := c.verify,
                    auth := if sa then c.authprovider else none } ∧
      (c.deleteVerb transport url params sa).2 =
        (match lookupKey (c.deleteVerb transport url params sa).1.headers
            "Warning" with
         | some w => [w]
         | none => [])) ∧
    ((c.putVerb transport url data json params sa).1 =
        transport { method := "PUT", url := c.apiroot ++ url, data := data,
                    json := json, params := params, verify := c.verify,
                    auth := if sa then c.authprovider else none } ∧
      (c.putVerb transport url data json params sa).2 =
        (match lookupKey (c.putVerb transport url data json params sa).1.headers
            "Warning" with
         | some w => [w]
         | none => [])) ∧
    ((c.patchVerb transport url data json params sa).1 =
        transport { method := "PATCH", url := c.apiroot ++ url, data := data,
                    json := json, params := params, verify := c.verify,
                    auth := if sa then c.authprovider else none } ∧
      (c.patchVerb transport url data json params sa).2 =
        (match lookupKey (c.patchVerb transport url data json params sa).1.headers
            "Warning" with
         | some w => [w]
         | none => [])) :=
  ⟨⟨rfl, warnIfWarningHeader_eq _⟩, ⟨rfl, warnIfWarningHeader_eq _⟩,
   ⟨rfl, warnIfWarningHeader_eq _⟩, ⟨rfl, warnIfWarningHeader_eq _⟩,
   ⟨rfl, warnIfWarningHeader_eq _⟩⟩

/-- C9: the connection built by `copy_connection` from a constructed
connection agrees with it on hostname, port, TLS settings and hence
`apiRoot`, shares the identical transport session reference and the identical
credential reference, and therefore observes the same `sessionToken` as the
original in every state of the credential store — a login through either is
visible to both. -/
theorem copy_connection_round_trip (hostname : String) (port : Nat)
    (ssl verify : Bool) (auth : Option Nat) (existing_session : Option Nat)
    (s0 s1 : Nat) :
    (Connection.copy_connection
        (Connection.init hostname port ssl verify auth existing_session s0) s1).hostname
      = (Connection.init hostname port ssl verify auth existing_session s0).hostname ∧
    (Connection.copy_connection
        (Connection.init hostname port ssl verify auth existing_session s0) s1).port
      = (Connection.init hostname port ssl verify auth existing_session s0).port ∧
    (Connection.copy_connection
        (Connection.init hostname port ssl verify auth existing_session s0) s1).ssl
      = (Connection.init hostname port ssl verify auth existing_session s0).ssl ∧
    (Connection.copy_connection
        (Connection.init hostname port ssl verify auth existing_session s0) s1).verify
      = (Connection.init hostname port ssl verify auth existing_session s0).verify ∧
    (Connection.copy_connection
        (Connection.init hostname port ssl verify auth existing_session s0) s1).apiroot
      = (Connection.init hostname port ssl verify auth existing_session s0).apiroot ∧
    (Connection.copy_connection
        (Connection.init hostname port ssl verify auth existing_session s0) s1).requestsession
      = (Connection.init hostname port ssl verify auth existing_session s0).requestsession ∧
    (Connection.copy_connection
        (Connection.init hostname port ssl verify auth existing_session s0) s1).authprovider
      = (Connection.init hostname port ssl verify auth existing_session s0).authprovider ∧
    ∀ store : Nat → Option String,
      Connection.observedToken store
          (Connection.copy_connection
            (Connection.init hostname port ssl verify auth existing_session s0) s1)
        = Connection.observedToken store
            (Connection.init hostname port ssl verify auth existing_session s0) :=
  ⟨rfl, rfl, rfl, rfl, rfl, rfl, rfl, fun _ => rfl⟩

/-- C10: the credential's stored `sessionToken` is untouched by every failing
run of the 401/440 recovery path — whenever the login exchange itself errors
(missing credentials or no extractable session id), `handle_401` leaves the
credential exactly as it was; the token is overwritten only after a
successful login. -/
theorem handle_401_token_atomicity (cred : Credentials) (r : HttpResponse)
    (send : PreparedRequest → HttpResponse) :
    (∀ e tr, get_session cred r send = (Except.error e, tr) →
      (handle_401 cred r send).2.1 = cred) ∧
    (∀ sid tr, get_session cred r send = (Except.ok sid, tr) →
      (r.status_code = 401 ∨ r.status_code = 440) →
      (handle_401 cred r send).2.1 = { cred with sessionId := some sid }) := by
  constructor
  · intro e tr hgs
    by_cases hst : r.status_code = 401 ∨ r.status_code = 440
    · rw [handle_401_of_error cred r send e tr hst hgs]
    · rw [handle_401_not_auth cred r send hst]
  · intro sid tr hgs hst
    rw [handle_401_of_ok cred r send sid tr hst hgs]
    split <;> rfl

/-- C10 witness: a login failure (body without `sessionId`) leaves the stored
token exactly as it was. -/
theorem handle_401_token_atomicity_witness :
    (handle_401 credEx respEx401 sendNoSid).2.1 = credEx :=
  (handle_401_token_atomicity credEx respEx401 sendNoSid).1
    (AuthError.authenticationFailed
      (sendNoSid (loginRequest "admin" "secret" "Local" respEx401)))
    [loginRequest "admin" "secret" "Local" respEx401] rfl

end PyLoginsight
